import Mathlib

/-!
Shallow embedding of `src/change-listeners.js` (class `ChangeListeners`) from
the spiegel repository: the listener-claim protocol, the batch engine and the
retry scheduler.  Timestamps are modelled as natural numbers (milliseconds),
JS truthiness of optional fields as `Option.isSome`, and calls to external
collaborators (the document store, the change processor, the base process
class) as oracle arguments or as emitted effects.
-/

namespace Spiegel

/-- A ChangeListener record (a `change_listener` document).  Optional JS
fields are `Option`; `dirty` is a `Bool` where an absent JS field behaves as
`false` under truthiness. -/
structure Listener where
  _id : Option String := none
  db_name : String
  dirty : Bool := false
  dirty_at : Option Nat := none
  locked_at : Option Nat := none
  last_seq : Option String := none
  retries : Option Nat := none
  updated_at : Option Nat := none
  type : Option String := none
  revision : Option String := none
  deriving DecidableEq

/-- Errors raised inside a batch: `DatabaseNotFoundError`, `ApiRequestError`,
or any other unexpected error. -/
inductive Err where
  | databaseNotFound (dbName : String)
  | apiRequest
  | generic (code : String)
  deriving DecidableEq

/-- A failure of the underlying changes-feed fetch; `error` is the JS
`err.error` code checked against `not_found`. -/
structure FetchErr where
  error : String
  deriving DecidableEq

/-- One change event from the feed (contents opaque to this module). -/
structure Change where
  docId : String
  deriving DecidableEq

/-- One page of a changes feed as returned by `changesArray`: the results, the
resume cursor and the count of changes still pending. -/
structure Page where
  results : List Change
  last_seq : String
  pending : Option Nat
  deriving DecidableEq

/-- The options `_changesForListener` passes to the changes-feed fetch. -/
structure ChangesOpts where
  since : Option String
  include_docs : Bool
  limit : Nat
  deriving DecidableEq

/-- Side effects emitted towards external collaborators during a batch. -/
inductive Effect where
  | onError (e : Err)
  | updateItem (item : Listener) (retryOnConflict : Bool)
  | queueSoiler (dirtyAt : Nat)
  | updateLastSeq (id : String) (lastSeq : String)
  deriving DecidableEq

/-- The two backoff strategies. -/
inductive BackoffStrategy where
  | linear
  | exponential
  deriving DecidableEq

/-- The backoff policy configuration handed to the `Backoff` collaborator. -/
structure Backoff where
  strategy : BackoffStrategy
  multiplier : Nat
  delay : Nat
  limit : Nat
  deriving DecidableEq

/-- Modelled from the spec: `backoff.js` is not under `src/`.  The linear
strategy yields a fixed delay regardless of attempt count; the exponential
strategy yields initial interval times multiplier to the attempt count. -/
def Backoff.getDelaySecs (b : Backoff) (attempt : Nat) : Nat :=
  match b.strategy with
  | .linear => b.delay
  | .exponential => b.delay * b.multiplier ^ attempt

/-- Modelled from the spec: `backoff.js` is not under `src/`.  The retry-limit
predicate; a configured limit of 0 is treated as "no limit". -/
def Backoff.hasReachedRetryLimit (b : Backoff) (retries : Nat) : Bool :=
  b.limit != 0 && decide (b.limit ≤ retries)

/-- Modelled from the spec: `process.js` is not under `src/`.  The
`touchUpdatedAt` collaborator sets `updated_at` to the current time. -/
def setUpdatedAt (now : Nat) (item : Listener) : Listener :=
  { item with updated_at := some now }

/-- Modelled from the spec: `process.js` is not under `src/`.  The `setDirtyAt`
collaborator sets the scheduling marker `dirty_at`. -/
def setDirtyAt (item : Listener) (dirtyTime : Nat) : Listener :=
  { item with dirty_at := some dirtyTime }

/-- Modelled from the spec: `process.js` is not under `src/`.  On reaching the
retry limit the scheduler clears `retries` to 0 and sets no `dirty_at`. -/
def clearRetries (item : Listener) : Listener :=
  { item with retries := some 0 }

/-- The method `_toId`: deterministic id, the `spiegel_cl_` id namespace
followed by the database name. -/
def toId (dbName : String) : String := "spiegel_cl_" ++ dbName

/-- The bare `\x7b db_name: dbName \x7d` object pushed for a missing listener
in `_getCleanLockedOrMissing`. -/
def freshListener (dbName : String) : Listener :=
  { db_name := dbName }

/-- The method `_getCleanLockedOrMissing`: `fetched` is the store's response to
the view query keyed by `dbNames`.  The source builds an object keyed by the
names (deduplicating), deletes every fetched name, keeps the clean-or-locked
fetched records and appends a fresh stub per name still missing. -/
def getCleanLockedOrMissing (dbNames : List String) (fetched : List Listener) :
    List Listener :=
  fetched.filter (fun l => !l.dirty || l.locked_at.isSome) ++
    ((dbNames.dedup.filter
        (fun n => !(fetched.any (fun l => l.db_name == n)))).map freshListener)

/-- One iteration of the loop in `_dirtyOrCreate` on a single listener. -/
def dirtyListener (now : Nat) (l : Listener) : Listener :=
  if l._id.isSome then
    setUpdatedAt now { l with dirty := true }
  else
    setUpdatedAt now
      { l with
          _id := some (toId l.db_name)
          type := some "change_listener"
          dirty := true }

/-- The method `_dirtyOrCreate` (its pure part; the outcome of the bulk write
is supplied separately as a list of per-document conflict flags). -/
def dirtyOrCreate (now : Nat) (listeners : List Listener) : List Listener :=
  listeners.map (dirtyListener now)

/-- One step of the response scan in `_dirtyAndGetConflictedDBNames`: a
conflicted response entry inserts its database name, at most once (the source
collects names as JS object keys). -/
def collectConflicted (acc : List String) (p : Listener × Bool) : List String :=
  if p.2 = true ∧ p.1.db_name ∉ acc then acc ++ [p.1.db_name] else acc

/-- The method `_dirtyAndGetConflictedDBNames`: `conflicts` holds, per written
document in write order, whether the bulk response reported an
optimistic-concurrency conflict for it. -/
def dirtyAndGetConflictedDBNames (now : Nat) (listeners : List Listener)
    (conflicts : List Bool) : List String :=
  ((dirtyOrCreate now listeners).zip conflicts).foldl collectConflicted []

/-- One round of fetch plus bulk write as seen by
`_attemptToDirtyIfCleanOrLocked`: what the view query returned and, per
written document, whether the bulk write conflicted. -/
structure StoreRound where
  fetched : List Listener
  conflicts : List Bool

/-- The method `_attemptToDirtyIfCleanOrLocked`; yields `none` (JS
`undefined`) when there is nothing to dirty. -/
def attemptToDirtyIfCleanOrLocked (now : Nat) (round : StoreRound)
    (dbNames : List String) : Option (List String) :=
  let listeners := getCleanLockedOrMissing dbNames round.fetched
  if listeners.length > 0 then
    some (dirtyAndGetConflictedDBNames now listeners round.conflicts)
  else
    none

/-- The method `dirtyIfCleanOrLocked`: recursion on the conflicted names,
driven by an oracle giving each round's store responses; fuel bounds the
recursion (the source recursion has no internal bound).  Returns the argument
lists of the recursive calls actually made. -/
def dirtyIfCleanOrLocked (now : Nat) (oracle : Nat → List String → StoreRound) :
    Nat → Nat → List String → List (List String)
  | 0, _, _ => []
  | fuel + 1, round, dbNames =>
    match attemptToDirtyIfCleanOrLocked now (oracle round dbNames) dbNames with
    | some (n :: ns) =>
      (n :: ns) :: dirtyIfCleanOrLocked now oracle fuel (round + 1) (n :: ns)
    | _ => []

/-- The method `_changesForListener`: build the changes-feed options from the
listener (`since` is `last_seq || undefined`) and map a `not_found` fetch
failure to `DatabaseNotFoundError`, rethrowing anything else unchanged. -/
def changesForListener (batchSize : Nat)
    (fetch : ChangesOpts → Except FetchErr Page) (listener : Listener) :
    Except Err Page :=
  let since := match listener.last_seq with
    | some s => if s.isEmpty then none else some s
    | none => none
  match fetch { since := since, include_docs := true, limit := batchSize } with
  | .ok page => .ok page
  | .error e =>
    if e.error = "not_found" then .error (.databaseNotFound listener.db_name)
    else .error (.generic e.error)

/-- The failure observed when joining the accumulated requests with
`Promise.all`, modelled deterministically as the first failed request in
accumulation order (the join fails iff at least one request failed). -/
def firstError : List (Except Err Unit) → Option Err
  | [] => none
  | .ok _ :: rest => firstError rest
  | .error e :: _ => some e

/-- The method `_scheduleRetry`. -/
def scheduleRetry (b : Backoff) (now : Nat) (item : Listener) :
    Listener × List Effect :=
  let retries := item.retries.getD 0
  if b.hasReachedRetryLimit retries then
    (clearRetries item, [])
  else
    let dirtyTime := now + b.getDelaySecs retries * 1000
    let item2 := { setDirtyAt item dirtyTime with retries := some (retries + 1) }
    (item2, [Effect.updateItem item2 true, Effect.queueSoiler dirtyTime])

/-- The method `_waitForRequests`: join all requests; on a failure report the
error, and for an `ApiRequestError` schedule a retry instead of rethrowing. -/
def waitForRequests (b : Backoff) (now : Nat)
    (requests : List (Except Err Unit)) (listener : Listener) :
    List Effect × Except Err Listener :=
  match firstError requests with
  | none => ([], .ok listener)
  | some Err.apiRequest =>
    let sr := scheduleRetry b now listener
    (Effect.onError Err.apiRequest :: sr.2, .ok sr.1)
  | some e => ([Effect.onError e], .error e)

/-- The promise chain of `_processChanges`: changes are handed to the change
processor strictly sequentially; the accumulator carries the order in which
the processor observes changes together with the outbound requests gathered
so far. -/
def processChangesLoop (proc : Change → String → List (Except Err Unit))
    (dbName : String) :
    List Change → List Change × List (Except Err Unit) →
      List Change × List (Except Err Unit)
  | [], acc => acc
  | c :: cs, acc =>
    processChangesLoop proc dbName cs (acc.1 ++ [c], acc.2 ++ proc c dbName)

/-- The method `_processChanges`: run the sequential chain over the page's
results, then wait for all accumulated requests. -/
def processChanges (b : Backoff) (now : Nat)
    (proc : Change → String → List (Except Err Unit)) (listener : Listener)
    (changes : Page) : List Effect × Except Err Listener :=
  waitForRequests b now
    (processChangesLoop proc listener.db_name changes.results ([], [])).2
    listener

/-- The method `_moreBatches`: JS truthiness of the `pending` count. -/
def moreBatches (changes : Page) : Bool :=
  !(changes.pending.getD 0 == 0)

/-- The method `_processBatchOfChanges`. -/
def processBatchOfChanges (b : Backoff) (batchSize : Nat) (now : Nat)
    (fetch : ChangesOpts → Except FetchErr Page)
    (proc : Change → String → List (Except Err Unit)) (listener : Listener) :
    List Effect × Except Err Bool :=
  match changesForListener batchSize fetch listener with
  | .error e => ([], .error e)
  | .ok changes =>
    match processChanges b now proc listener changes with
    | (effs, .error e) => (effs, .error e)
    | (effs, .ok item2) =>
      if item2.dirty_at.isSome then (effs, .ok (moreBatches changes))
      else
        (effs ++ [Effect.updateLastSeq (item2._id.getD "") changes.last_seq],
          .ok (moreBatches changes))

/-- The method `_processBatchOfChangesLogError`: rethrows
`DatabaseNotFoundError`, logs any other failure and resolves `true`; on
success the inner boolean is discarded (the source awaits
`_processBatchOfChanges` without `return`), so the call resolves to JS
`undefined`, modelled as `none`. -/
def processBatchOfChangesLogError (b : Backoff) (batchSize : Nat) (now : Nat)
    (fetch : ChangesOpts → Except FetchErr Page)
    (proc : Change → String → List (Except Err Unit)) (listener : Listener) :
    List Effect × Except Err (Option Bool) :=
  match processBatchOfChanges b batchSize now fetch proc listener with
  | (effs, .ok _) => (effs, .ok none)
  | (effs, .error (Err.databaseNotFound d)) =>
    (effs, .error (.databaseNotFound d))
  | (effs, .error e) => (effs ++ [Effect.onError e], .ok (some true))

/-- The partial document sent by `_updateLastSeq`: only the record id and the
new `last_seq`. -/
structure LastSeqDoc where
  _id : String
  last_seq : String
  deriving DecidableEq

/-- The partial document built by `_updateLastSeq`. -/
def updateLastSeqDoc (id lastSeq : String) : LastSeqDoc :=
  { _id := id, last_seq := lastSeq }

/-- Modelled from the spec: slouch's `getMergeUpsert` is an external store
primitive (`mergeUpsert`): it applies the partial field update on top of the
current version of the record, retrying internally on revision conflicts, so
the merge always lands on the latest version. -/
def applyMergeUpsert (r : Listener) (p : LastSeqDoc) : Listener :=
  { r with last_seq := some p.last_seq }

/-! ### Helper lemmas -/

theorem processChangesLoop_eq (proc : Change → String → List (Except Err Unit))
    (dbName : String) :
    ∀ (cs : List Change) (acc : List Change × List (Except Err Unit)),
      processChangesLoop proc dbName cs acc =
        (acc.1 ++ cs, acc.2 ++ cs.flatMap (fun c => proc c dbName)) := by
  intro cs
  induction cs with
  | nil => intro acc; simp [processChangesLoop]
  | cons c cs ih => intro acc; simp [processChangesLoop, ih, List.append_assoc]

theorem dirtyListener_db_name (now : Nat) (l : Listener) :
    (dirtyListener now l).db_name = l.db_name := by
  unfold dirtyListener setUpdatedAt
  by_cases h : l._id.isSome <;> simp [h]

theorem mem_collectConflicted (n : String) (acc : List String)
    (p : Listener × Bool) :
    n ∈ collectConflicted acc p ↔ n ∈ acc ∨ (p.2 = true ∧ p.1.db_name = n) := by
  unfold collectConflicted
  by_cases h : p.2 = true ∧ p.1.db_name ∉ acc
  · rw [if_pos h]
    simp only [List.mem_append, List.mem_singleton]
    constructor
    · rintro (hn | hn)
      · exact Or.inl hn
      · exact Or.inr ⟨h.1, hn.symm⟩
    · rintro (hn | ⟨_, hn⟩)
      · exact Or.inl hn
      · exact Or.inr hn.symm
  · rw [if_neg h]
    constructor
    · exact Or.inl
    · rintro (hn | ⟨h2, hdb⟩)
      · exact hn
      · rcases not_and_or.mp h with h3 | h3
        · exact absurd h2 h3
        · rw [← hdb]
          exact not_not.mp h3

theorem mem_foldl_collectConflicted (n : String) :
    ∀ (ps : List (Listener × Bool)) (acc : List String),
      n ∈ ps.foldl collectConflicted acc ↔
        n ∈ acc ∨ ∃ p ∈ ps, p.2 = true ∧ p.1.db_name = n := by
  intro ps
  induction ps with
  | nil => intro acc; simp
  | cons p ps ih =>
    intro acc
    rw [List.foldl_cons, ih, mem_collectConflicted]
    simp only [List.mem_cons]
    constructor
    · rintro ((hn | hp) | ⟨q, hq, hq2⟩)
      · exact Or.inl hn
      · exact Or.inr ⟨p, Or.inl rfl, hp⟩
      · exact Or.inr ⟨q, Or.inr hq, hq2⟩
    · rintro (hn | ⟨q, (rfl | hq), hq2⟩)
      · exact Or.inl (Or.inl hn)
      · exact Or.inl (Or.inr hq2)
      · exact Or.inr ⟨q, hq, hq2⟩

theorem nodup_foldl_collectConflicted :
    ∀ (ps : List (Listener × Bool)) (acc : List String), acc.Nodup →
      (ps.foldl collectConflicted acc).Nodup := by
  intro ps
  induction ps with
  | nil => intro acc h; simpa using h
  | cons p ps ih =>
    intro acc h
    rw [List.foldl_cons]
    apply ih
    unfold collectConflicted
    by_cases hc : p.2 = true ∧ p.1.db_name ∉ acc
    · rw [if_pos hc]
      simp [List.nodup_append, h, hc.2]
    · rw [if_neg hc]; exact h

/-! ### Claim theorems -/

/-- C7: within one batch the Change Dispatcher is invoked strictly
sequentially, observing the page's changes in exactly their arrival order
(the first component of the chain accumulator), and the batch then waits on
the join of all outbound requests accumulated across the whole page. -/
theorem c7_dispatch_order_preserved
    (proc : Change → String → List (Except Err Unit)) (dbName : String)
    (b : Backoff) (now : Nat) (listener : Listener) (page : Page) :
    (processChangesLoop proc dbName page.results ([], [])).1 = page.results ∧
    processChanges b now proc listener page =
      waitForRequests b now
        (page.results.flatMap (fun c => proc c listener.db_name)) listener := by
  constructor
  · rw [processChangesLoop_eq]
    simp
  · unfold processChanges
    rw [processChangesLoop_eq]
    simp

/-- C3: when every outbound request of the batch succeeds, the batch advances
`last_seq` to the page's cursor exactly when the scheduling marker `dirty_at`
is absent from the listener record at the check; when `dirty_at` is present
no `last_seq` write is issued at all, so `last_seq` after the batch equals
its value before the batch. -/
theorem c3_no_silent_skip (b : Backoff) (batchSize now : Nat)
    (fetch : ChangesOpts → Except FetchErr Page)
    (proc : Change → String → List (Except Err Unit))
    (listener : Listener) (page : Page)
    (hfetch : changesForListener batchSize fetch listener = .ok page)
    (hok : firstError (page.results.flatMap (fun c => proc c listener.db_name)) =
      none) :
    processBatchOfChanges b batchSize now fetch proc listener =
      ((if listener.dirty_at.isSome then []
        else [Effect.updateLastSeq (listener._id.getD "") page.last_seq]),
       .ok (moreBatches page)) := by
  unfold processBatchOfChanges
  rw [hfetch]
  dsimp only
  unfold processChanges
  rw [processChangesLoop_eq]
  dsimp only
  simp only [List.nil_append]
  unfold waitForRequests
  rw [hok]
  by_cases hd : listener.dirty_at.isSome <;> simp [hd]

/-- C2 counterexample: with backoff limit 1 and a listener already at
`retries = 1`, a batch whose only dispatch fails with an `ApiRequestError`
still emits the `last_seq` advance to the page's cursor, refuting the claim
that `last_seq` is never advanced after a recoverable dispatch failure,
including when the retry limit has been reached. -/
theorem c2_counterexample :
    Effect.updateLastSeq "spiegel_cl_a" "5" ∈
      (processBatchOfChanges ⟨.linear, 2, 5, 1⟩ 100 0
        (fun _ => .ok { results := [⟨"d1"⟩], last_seq := "5", pending := some 1 })
        (fun _ _ => [.error .apiRequest])
        { _id := some "spiegel_cl_a", db_name := "a", dirty := true,
          retries := some 1 }).1 := by decide

/-- C2 amended: when a dispatch of the batch fails with an `ApiRequestError`
(the join observes a recoverable failure) and no `dirty_at` was set on entry,
the Retry Scheduler is invoked for every value of the retry counter; if the
backoff retry limit has not been reached it sets `dirty_at` so `last_seq` is
not advanced, but if the limit has already been reached it only clears the
retries, and the batch then does advance `last_seq` to the page's cursor. -/
theorem c2_amended_retry_vs_advance (b : Backoff) (batchSize now : Nat)
    (fetch : ChangesOpts → Except FetchErr Page)
    (proc : Change → String → List (Except Err Unit))
    (listener : Listener) (page : Page)
    (hd : listener.dirty_at = none)
    (hfetch : changesForListener batchSize fetch listener = .ok page)
    (hfail : firstError (page.results.flatMap (fun c => proc c listener.db_name)) =
      some Err.apiRequest) :
    processBatchOfChanges b batchSize now fetch proc listener =
      (Effect.onError Err.apiRequest ::
        ((scheduleRetry b now listener).2 ++
          (if b.hasReachedRetryLimit (listener.retries.getD 0) then
            [Effect.updateLastSeq (listener._id.getD "") page.last_seq]
          else [])),
       .ok (moreBatches page)) := by
  unfold processBatchOfChanges
  rw [hfetch]
  dsimp only
  unfold processChanges
  rw [processChangesLoop_eq]
  dsimp only
  simp only [List.nil_append]
  unfold waitForRequests
  rw [hfail]
  unfold scheduleRetry
  by_cases hl : b.hasReachedRetryLimit (listener.retries.getD 0)
  · simp [hl, clearRetries, hd]
  · simp [hl, setDirtyAt, hd]

/-- C2 amended witness: concrete run with the retry limit not reached (limit
0, i.e. unlimited): the retry is scheduled, `dirty_at` is set and no
`last_seq` advance is emitted. -/
theorem c2_amended_retry_vs_advance_witness :
    processBatchOfChanges ⟨.linear, 2, 5, 0⟩ 100 0
        (fun _ => .ok { results := [⟨"d1"⟩], last_seq := "5", pending := some 1 })
        (fun _ _ => [.error .apiRequest])
        { _id := some "spiegel_cl_a", db_name := "a", dirty := true,
          retries := some 1 } =
      ([Effect.onError Err.apiRequest,
        Effect.updateItem
          { _id := some "spiegel_cl_a", db_name := "a", dirty := true,
            dirty_at := some 5000, retries := some 2 } true,
        Effect.queueSoiler 5000],
       .ok true) := by
  exact c2_amended_retry_vs_advance ⟨.linear, 2, 5, 0⟩ 100 0
    (fun _ => .ok { results := [⟨"d1"⟩], last_seq := "5", pending := some 1 })
    (fun _ _ => [.error .apiRequest])
    { _id := some "spiegel_cl_a", db_name := "a", dirty := true,
      retries := some 1 }
    { results := [⟨"d1"⟩], last_seq := "5", pending := some 1 }
    rfl rfl rfl

/-- C1: the fetched page reports more pages pending (`pending = 1`) and every
dispatch succeeds, so `_processBatchOfChanges` resolves `true`; but
`_processBatchOfChangesLogError` awaits it without `return`, so the batch
operation the caller sees resolves to `undefined` (`none`), not `true`. -/
theorem c1_pending_result_discarded :
    moreBatches
        { results := [⟨"d1"⟩], last_seq := "5", pending := some 1 } = true ∧
    processBatchOfChanges ⟨.linear, 2, 5, 0⟩ 100 0
        (fun _ => .ok { results := [⟨"d1"⟩], last_seq := "5", pending := some 1 })
        (fun _ _ => [.ok ()])
        { _id := some "spiegel_cl_a", db_name := "a", dirty := true } =
      ([Effect.updateLastSeq "spiegel_cl_a" "5"], .ok true) ∧
    processBatchOfChangesLogError ⟨.linear, 2, 5, 0⟩ 100 0
        (fun _ => .ok { results := [⟨"d1"⟩], last_seq := "5", pending := some 1 })
        (fun _ _ => [.ok ()])
        { _id := some "spiegel_cl_a", db_name := "a", dirty := true } =
      ([Effect.updateLastSeq "spiegel_cl_a" "5"], .ok none) :=
  ⟨rfl, rfl, rfl⟩

/-- C3 witness: a fully successful batch advances `last_seq` to the page's
cursor when `dirty_at` is absent and issues no `last_seq` write when it is
present. -/
theorem c3_no_silent_skip_witness :
    processBatchOfChanges ⟨.linear, 2, 5, 0⟩ 100 0
        (fun _ => .ok { results := [⟨"d1"⟩], last_seq := "5", pending := some 1 })
        (fun _ _ => [.ok ()])
        { _id := some "spiegel_cl_a", db_name := "a", dirty := true } =
      ([Effect.updateLastSeq "spiegel_cl_a" "5"], .ok true) ∧
    processBatchOfChanges ⟨.linear, 2, 5, 0⟩ 100 0
        (fun _ => .ok { results := [⟨"d1"⟩], last_seq := "5", pending := some 1 })
        (fun _ _ => [.ok ()])
        { _id := some "spiegel_cl_a", db_name := "a", dirty := true,
          dirty_at := some 9000 } =
      ([], .ok true) := by
  constructor
  · exact c3_no_silent_skip ⟨.linear, 2, 5, 0⟩ 100 0
      (fun _ => .ok { results := [⟨"d1"⟩], last_seq := "5", pending := some 1 })
      (fun _ _ => [.ok ()])
      { _id := some "spiegel_cl_a", db_name := "a", dirty := true }
      { results := [⟨"d1"⟩], last_seq := "5", pending := some 1 } rfl rfl
  · exact c3_no_silent_skip ⟨.linear, 2, 5, 0⟩ 100 0
      (fun _ => .ok { results := [⟨"d1"⟩], last_seq := "5", pending := some 1 })
      (fun _ _ => [.ok ()])
      { _id := some "spiegel_cl_a", db_name := "a", dirty := true,
        dirty_at := some 9000 }
      { results := [⟨"d1"⟩], last_seq := "5", pending := some 1 } rfl rfl

/-- C4: the Retry Scheduler with current retry count `r` (absent treated as
0): if the Backoff Policy reports the limit reached for `r`, `retries` is
cleared to 0, `dirty_at` is untouched and nothing is persisted or notified;
otherwise `dirty_at` becomes now plus the policy's delay for `r` (in
seconds), `retries` becomes `r + 1`, the record is persisted and the wakeup
mechanism is notified of the new `dirty_at`. -/
theorem c4_schedule_retry (b : Backoff) (now : Nat) (item : Listener) :
    (b.hasReachedRetryLimit (item.retries.getD 0) = true →
      scheduleRetry b now item = ({ item with retries := some 0 }, [])) ∧
    (b.hasReachedRetryLimit (item.retries.getD 0) = false →
      scheduleRetry b now item =
        ({ item with
             dirty_at := some (now + b.getDelaySecs (item.retries.getD 0) * 1000)
             retries := some (item.retries.getD 0 + 1) },
         [Effect.updateItem
            { item with
                dirty_at :=
                  some (now + b.getDelaySecs (item.retries.getD 0) * 1000)
                retries := some (item.retries.getD 0 + 1) } true,
          Effect.queueSoiler
            (now + b.getDelaySecs (item.retries.getD 0) * 1000)])) := by
  constructor
  · intro h
    simp [scheduleRetry, clearRetries, h]
  · intro h
    simp [scheduleRetry, setDirtyAt, h]

/-- C4 witness: with limit 1 and `retries = 1` the retries are cleared; with
limit 0 (unlimited) and absent `retries` the first retry is scheduled 5
seconds out, persisted, and the wakeup queue notified. -/
theorem c4_schedule_retry_witness :
    scheduleRetry ⟨.linear, 2, 5, 1⟩ 0 { db_name := "a", retries := some 1 } =
      ({ db_name := "a", retries := some 0 }, []) ∧
    scheduleRetry ⟨.linear, 2, 5, 0⟩ 9 { db_name := "a" } =
      ({ db_name := "a", dirty_at := some 5009, retries := some 1 },
       [Effect.updateItem
          { db_name := "a", dirty_at := some 5009, retries := some 1 } true,
        Effect.queueSoiler 5009]) :=
  ⟨(c4_schedule_retry ⟨.linear, 2, 5, 1⟩ 0
      { db_name := "a", retries := some 1 }).1 rfl,
   (c4_schedule_retry ⟨.linear, 2, 5, 0⟩ 9 { db_name := "a" }).2 rfl⟩

/-- C9: dirtying an existing listener record (one with an `_id`) changes only
the `dirty` flag (to `true`) and `updated_at`; every other field, including
`locked_at`, `last_seq`, `dirty_at` and `retries`, is unchanged. -/
theorem c9_dirty_frame (now : Nat) (l : Listener) (h : l._id.isSome = true) :
    (dirtyListener now l).dirty = true ∧
    (dirtyListener now l).updated_at = some now ∧
    (dirtyListener now l)._id = l._id ∧
    (dirtyListener now l).db_name = l.db_name ∧
    (dirtyListener now l).locked_at = l.locked_at ∧
    (dirtyListener now l).dirty_at = l.dirty_at ∧
    (dirtyListener now l).last_seq = l.last_seq ∧
    (dirtyListener now l).retries = l.retries ∧
    (dirtyListener now l).revision = l.revision ∧
    (dirtyListener now l).type = l.type := by
  simp [dirtyListener, setUpdatedAt, h]

/-- C9 witness: a locked, clean listener claimed as dirty keeps its
`locked_at` (and all other fields) while `dirty` and `updated_at` change. -/
theorem c9_dirty_frame_witness :
    (dirtyListener 7
      { _id := some "x", db_name := "a", locked_at := some 3,
        dirty_at := some 1, last_seq := some "s", retries := some 2,
        revision := some "r", type := some "t" }).dirty = true ∧
    (dirtyListener 7
      { _id := some "x", db_name := "a", locked_at := some 3,
        dirty_at := some 1, last_seq := some "s", retries := some 2,
        revision := some "r", type := some "t" }).updated_at = some 7 ∧
    (dirtyListener 7
      { _id := some "x", db_name := "a", locked_at := some 3,
        dirty_at := some 1, last_seq := some "s", retries := some 2,
        revision := some "r", type := some "t" }).locked_at = some 3 := by
  have h := c9_dirty_frame 7
    { _id := some "x", db_name := "a", locked_at := some 3,
      dirty_at := some 1, last_seq := some "s", retries := some 2,
      revision := some "r", type := some "t" } rfl
  exact ⟨h.1, h.2.1, h.2.2.2.2.1⟩

/-- C10: the advance of the resume position sends a partial document holding
only the record id and `last_seq`; merged (with internal conflict retry) onto
the current version of the record — however it was concurrently modified —
it changes only `last_seq`, and the update is not lost. -/
theorem c10_update_last_seq_merge (r : Listener) (id seq : String)
    (h : r._id = some id) :
    some (updateLastSeqDoc id seq)._id = r._id ∧
    (updateLastSeqDoc id seq).last_seq = seq ∧
    applyMergeUpsert r (updateLastSeqDoc id seq) =
      { r with last_seq := some seq } :=
  ⟨h.symm, rfl, rfl⟩

/-- C10 witness: merging the `last_seq` partial onto a concurrently
re-dirtied version of the record keeps the re-dirty (`dirty = true`,
`locked_at`, `retries`) and lands the new `last_seq`. -/
theorem c10_update_last_seq_merge_witness :
    applyMergeUpsert
        { _id := some "spiegel_cl_a", db_name := "a", dirty := true,
          locked_at := some 3, last_seq := some "4", retries := some 2 }
        (updateLastSeqDoc "spiegel_cl_a" "5") =
      { _id := some "spiegel_cl_a", db_name := "a", dirty := true,
        locked_at := some 3, last_seq := some "5", retries := some 2 } :=
  (c10_update_last_seq_merge
    { _id := some "spiegel_cl_a", db_name := "a", dirty := true,
      locked_at := some 3, last_seq := some "4", retries := some 2 }
    "spiegel_cl_a" "5" rfl).2.2

/-- C5: under the store invariants that fetched records carry an `_id` and
database names are unique among them, a fetched record is selected for
dirtying iff it is clean or locked (`!dirty || locked_at`); a dirty-unlocked
record is skipped and no written document targets its database; and every
requested name with no fetched record yields a fresh record, written with
`dirty = true`, the deterministic id `spiegel_cl_` + name and the
`change_listener` type. -/
theorem c5_claim_partition (dbNames : List String) (fetched : List Listener)
    (now : Nat)
    (hids : ∀ l ∈ fetched, l._id.isSome = true)
    (huniq : ∀ l1 ∈ fetched, ∀ l2 ∈ fetched, l1.db_name = l2.db_name → l1 = l2) :
    (∀ l ∈ fetched,
      (l ∈ getCleanLockedOrMissing dbNames fetched ↔
        (!l.dirty || l.locked_at.isSome) = true)) ∧
    (∀ l ∈ fetched, l.dirty = true → l.locked_at = none →
      ∀ w ∈ dirtyOrCreate now (getCleanLockedOrMissing dbNames fetched),
        w.db_name ≠ l.db_name) ∧
    (∀ n ∈ dbNames, (∀ l ∈ fetched, l.db_name ≠ n) →
      ∃ w ∈ dirtyOrCreate now (getCleanLockedOrMissing dbNames fetched),
        w._id = some (toId n) ∧ w.dirty = true ∧ w.db_name = n ∧
        w.type = some "change_listener") := by
  refine ⟨?_, ?_, ?_⟩
  · intro l hl
    constructor
    · intro hmem
      rcases List.mem_append.mp hmem with hf | hm
      · exact (List.mem_filter.mp hf).2
      · rcases List.mem_map.mp hm with ⟨n, _, hfresh⟩
        have hnone : l._id = none := by rw [← hfresh]; rfl
        have h2 := hids l hl
        rw [hnone] at h2
        simp at h2
    · intro hp
      exact List.mem_append.mpr (Or.inl (List.mem_filter.mpr ⟨hl, hp⟩))
  · intro l hl hdirty hlock w hw heq
    rcases List.mem_map.mp hw with ⟨x, hx, hdx⟩
    have hxdb : x.db_name = l.db_name := by
      rw [← heq, ← hdx, dirtyListener_db_name]
    rcases List.mem_append.mp hx with hf | hm
    · have hxf := List.mem_filter.mp hf
      have hxl : x = l := huniq x hxf.1 l hl hxdb
      have hpred := hxf.2
      rw [hxl, hdirty, hlock] at hpred
      simp at hpred
    · rcases List.mem_map.mp hm with ⟨n, hn, hfresh⟩
      have hnf := (List.mem_filter.mp hn).2
      have hndb : x.db_name = n := by rw [← hfresh]; rfl
      rw [Bool.not_eq_true', List.any_eq_false] at hnf
      have hne := hnf l hl
      rw [beq_iff_eq] at hne
      exact hne (hxdb.symm.trans hndb)
  · intro n hn hnone
    have hfilter : n ∈ dbNames.dedup.filter
        (fun m => !(fetched.any (fun l => l.db_name == m))) := by
      rw [List.mem_filter]
      refine ⟨List.mem_dedup.mpr hn, ?_⟩
      rw [Bool.not_eq_true', List.any_eq_false]
      intro f hf
      rw [beq_iff_eq]
      exact hnone f hf
    refine ⟨dirtyListener now (freshListener n),
      List.mem_map.mpr ⟨freshListener n,
        List.mem_append.mpr (Or.inr (List.mem_map.mpr ⟨n, hfilter, rfl⟩)), rfl⟩,
      ?_, ?_, ?_, ?_⟩
    · simp [dirtyListener, freshListener, setUpdatedAt]
    · simp [dirtyListener, freshListener, setUpdatedAt]
    · simp [dirtyListener, freshListener, setUpdatedAt]
    · simp [dirtyListener, freshListener, setUpdatedAt]

/-- C5 witness: with a locked clean record for "a" and a dirty unlocked
record for "b" fetched, the record for "a" is selected for dirtying. -/
theorem c5_claim_partition_witness :
    ({ _id := some "spiegel_cl_a", db_name := "a",
       locked_at := some 3 } : Listener) ∈
      getCleanLockedOrMissing ["a", "b", "c"]
        [{ _id := some "spiegel_cl_a", db_name := "a", locked_at := some 3 },
         { _id := some "spiegel_cl_b", db_name := "b", dirty := true }] :=
  ((c5_claim_partition ["a", "b", "c"]
      [{ _id := some "spiegel_cl_a", db_name := "a", locked_at := some 3 },
       { _id := some "spiegel_cl_b", db_name := "b", dirty := true }]
      7 (by decide) (by decide)).1
    { _id := some "spiegel_cl_a", db_name := "a", locked_at := some 3 }
    (by decide)).mpr (by decide)

/-- C6: the conflicted database names collected after a bulk write are exactly
the names whose written document came back flagged as a conflict, each name
at most once; the protocol recurses on exactly that list when it is
non-empty and stops when the attempt reports nothing to dirty — conflicts are
data of the recursion, never an error to the caller. -/
theorem c6_conflicts_internal (now : Nat) (listeners : List Listener)
    (conflicts : List Bool) (oracle : Nat → List String → StoreRound)
    (fuel round : Nat) (dbNames : List String) :
    (dirtyAndGetConflictedDBNames now listeners conflicts).Nodup ∧
    (∀ n, n ∈ dirtyAndGetConflictedDBNames now listeners conflicts ↔
      ∃ p ∈ (dirtyOrCreate now listeners).zip conflicts,
        p.2 = true ∧ p.1.db_name = n) ∧
    (∀ names,
      attemptToDirtyIfCleanOrLocked now (oracle round dbNames) dbNames =
        some names → names ≠ [] →
      dirtyIfCleanOrLocked now oracle (fuel + 1) round dbNames =
        names :: dirtyIfCleanOrLocked now oracle fuel (round + 1) names) ∧
    (attemptToDirtyIfCleanOrLocked now (oracle round dbNames) dbNames = none →
      dirtyIfCleanOrLocked now oracle (fuel + 1) round dbNames = []) := by
  refine ⟨?_, ?_, ?_, ?_⟩
  · exact nodup_foldl_collectConflicted _ _ List.nodup_nil
  · intro n
    unfold dirtyAndGetConflictedDBNames
    rw [mem_foldl_collectConflicted]
    simp
  · intro names hatt hne
    cases names with
    | nil => exact absurd rfl hne
    | cons m ms =>
      simp only [dirtyIfCleanOrLocked]
      rw [hatt]
  · intro hatt
    simp only [dirtyIfCleanOrLocked]
    rw [hatt]

/-- C6 witness: one conflicted write on "a" makes the protocol recurse on
exactly the list containing "a". -/
theorem c6_conflicts_internal_witness :
    dirtyIfCleanOrLocked 7 (fun _ _ => ⟨[], [true]⟩) 1 0 ["a"] =
      ["a"] :: dirtyIfCleanOrLocked 7 (fun _ _ => ⟨[], [true]⟩) 0 1 ["a"] :=
  (c6_conflicts_internal 7 [] [] (fun _ _ => ⟨[], [true]⟩) 0 0 ["a"]).2.2.1
    ["a"] (by decide) (by decide)

/-- C8: a change-feed fetch failure with error code `not_found` is converted
to `DatabaseNotFoundError` and propagated out of the batch; every other fetch
failure, and every dispatch failure that is not an `ApiRequestError`, is
logged via the error collaborator and the batch resolves `true`, leaving the
listener dirty for retry. -/
theorem c8_error_classification (b : Backoff) (batchSize now : Nat)
    (listener : Listener) (proc : Change → String → List (Except Err Unit))
    (page : Page) (e : FetchErr) :
    (e.error = "not_found" →
      processBatchOfChangesLogError b batchSize now (fun _ => .error e) proc
          listener =
        ([], .error (.databaseNotFound listener.db_name))) ∧
    (e.error ≠ "not_found" →
      processBatchOfChangesLogError b batchSize now (fun _ => .error e) proc
          listener =
        ([Effect.onError (.generic e.error)], .ok (some true))) ∧
    (∀ code,
      firstError (page.results.flatMap (fun c => proc c listener.db_name)) =
        some (Err.generic code) →
      processBatchOfChangesLogError b batchSize now (fun _ => .ok page) proc
          listener =
        ([Effect.onError (.generic code), Effect.onError (.generic code)],
          .ok (some true))) := by
  refine ⟨?_, ?_, ?_⟩
  · intro h
    unfold processBatchOfChangesLogError processBatchOfChanges
      changesForListener
    simp [h]
  · intro h
    unfold processBatchOfChangesLogError processBatchOfChanges
      changesForListener
    simp [h]
  · intro code h
    unfold processBatchOfChangesLogError processBatchOfChanges
      changesForListener
    dsimp only
    unfold processChanges
    rw [processChangesLoop_eq]
    dsimp only
    simp only [List.nil_append]
    unfold waitForRequests
    rw [h]
    rfl

/-- C8 witness: concrete runs of the three error paths — `not_found`
propagated as `DatabaseNotFoundError`, another fetch failure logged with the
batch resolving `true`, and a generic dispatch failure logged (by the join
and by the wrapper) with the batch resolving `true`. -/
theorem c8_error_classification_witness :
    processBatchOfChangesLogError ⟨.linear, 2, 5, 0⟩ 100 0
        (fun _ => .error ⟨"not_found"⟩) (fun _ _ => [])
        { _id := some "spiegel_cl_a", db_name := "a", dirty := true } =
      ([], .error (.databaseNotFound "a")) ∧
    processBatchOfChangesLogError ⟨.linear, 2, 5, 0⟩ 100 0
        (fun _ => .error ⟨"boom"⟩) (fun _ _ => [])
        { _id := some "spiegel_cl_a", db_name := "a", dirty := true } =
      ([Effect.onError (.generic "boom")], .ok (some true)) ∧
    processBatchOfChangesLogError ⟨.linear, 2, 5, 0⟩ 100 0
        (fun _ => .ok { results := [⟨"d1"⟩], last_seq := "5", pending := some 1 })
        (fun _ _ => [.error (.generic "g")])
        { _id := some "spiegel_cl_a", db_name := "a", dirty := true } =
      ([Effect.onError (.generic "g"), Effect.onError (.generic "g")],
        .ok (some true)) := by
  refine ⟨?_, ?_, ?_⟩
  · exact (c8_error_classification ⟨.linear, 2, 5, 0⟩ 100 0
      { _id := some "spiegel_cl_a", db_name := "a", dirty := true }
      (fun _ _ => [])
      { results := [], last_seq := "", pending := none }
      ⟨"not_found"⟩).1 rfl
  · exact (c8_error_classification ⟨.linear, 2, 5, 0⟩ 100 0
      { _id := some "spiegel_cl_a", db_name := "a", dirty := true }
      (fun _ _ => [])
      { results := [], last_seq := "", pending := none }
      ⟨"boom"⟩).2.1 (by decide)
  · exact (c8_error_classification ⟨.linear, 2, 5, 0⟩ 100 0
      { _id := some "spiegel_cl_a", db_name := "a", dirty := true }
      (fun _ _ => [.error (.generic "g")])
      { results := [⟨"d1"⟩], last_seq := "5", pending := some 1 }
      ⟨"x"⟩).2.2 "g" rfl

end Spiegel
